import Mathlib

/-!
Shallow embedding of the AIMeetingSummary backend (src/backend/main.py).

The backend is a thin FastAPI app with four handlers: `health`, `summarize`,
`upload_and_summarize` and `send_email`.  Outbound effects (the generative
model provider and the SMTP transport) are modelled as explicit parameters:
the provider is a function from the prompt string to the optional text of its
response (mirroring `getattr(response, "text", None)`), and the SMTP
connect/STARTTLS/login/send sequence is an oracle giving either success or an
exception's textual description.  The process environment is a partial map
from variable names to string values, mirroring `os.getenv`.
-/

namespace MeetingSummary

/-- The process environment: `os.getenv` returns `none` when a variable is
unset. -/
def Env : Type := String → Option String

/-- The resolved SMTP settings, i.e. the module-level variables
`SMTP_HOST`, `SMTP_PORT`, `SMTP_USER`, `SMTP_PASS`, `FROM_EMAIL` of
`backend/main.py` (lines 29-33). -/
structure SmtpConfig where
  host : String
  port : Nat
  user : String
  pass : String
  fromEmail : String
deriving Repr, DecidableEq

/-- Decimal parsing of a port string, modelling Python's `int()` on the
non-negative decimal strings that occur as `SMTP_PORT` values; any other
input maps to `none` (in Python, `int()` raises and the process fails to
start). -/
def parsePort (s : String) : Option Nat :=
  if s.data ≠ [] ∧ s.data.all Char.isDigit then
    some (s.data.foldl (fun n c => n * 10 + (c.toNat - 48)) 0)
  else none

/-- Resolution of the SMTP settings from the environment, mirroring
`os.getenv("SMTP_HOST", "smtp.gmail.com")`, `int(os.getenv("SMTP_PORT", "587"))`,
`os.getenv("SMTP_USER", "")`, `os.getenv("SMTP_PASS", "")` and
`os.getenv("FROM_EMAIL", SMTP_USER)`.  `none` models the startup failure of
`int()` on a non-numeric `SMTP_PORT`. -/
def resolveSmtpConfig (env : Env) : Option SmtpConfig :=
  match parsePort ((env "SMTP_PORT").getD "587") with
  | none => none
  | some port =>
    let user := (env "SMTP_USER").getD ""
    some { host := (env "SMTP_HOST").getD "smtp.gmail.com"
           port := port
           user := user
           pass := (env "SMTP_PASS").getD ""
           fromEmail := (env "FROM_EMAIL").getD user }

/-- The constant `SYSTEM_PROMPT` of `backend/main.py` (lines 35-53),
transcribed byte for byte. -/
def SYSTEM_PROMPT : String :=
  "You are a professional meeting minutes assistant. " ++
  "Your job is to extract and clearly present the most important information from meeting transcripts. " ++
  "Always use concise and unambiguous language. " ++
  "\n\nRequired Output Format (in clean Markdown):\n" ++
  "### Overview\n" ++
  "- One or two sentences summarizing the overall purpose of the meeting.\n\n" ++
  "### Key Points\n" ++
  "- Bullet list of the most relevant discussion items (short, factual, no repetition).\n\n" ++
  "### Decisions\n" ++
  "- List decisions made, including *who* made the decision.\n\n" ++
  "### Action Items\n" ++
  "- Format each action item as: **[Owner]:** [Task] *(Due: [date if mentioned, otherwise \x27TBD\x27])*\n\n" ++
  "### Risks/Dependencies\n" ++
  "- Mention potential risks, blockers, or dependencies (if none, write \x27None identified\x27).\n\n" ++
  "### Next Steps\n" ++
  "- List follow-up actions or upcoming events.\n\n" ++
  "If the user provides a custom instruction, strictly follow it while keeping output structured and precise."

/-- Request body of `POST /summarize` (`class SummarizeIn`). -/
structure SummarizeIn where
  transcript : String
  prompt : String
deriving Repr, DecidableEq

/-- Response body of the two summarization endpoints: `{"summary": ...}`. -/
structure SummaryOut where
  summary : String
deriving Repr, DecidableEq

/-- The user prompt built by both summarization handlers:
`f"Instruction: {prompt}\n\nTranscript:\n{transcript}"`
(lines 89 and 114 of `backend/main.py`). -/
def user_content (prompt transcript : String) : String :=
  "Instruction: " ++ prompt ++ "\n\nTranscript:\n" ++ transcript

/-- Whether a character is stripped by Python's `str.strip()`, i.e. the
`str.isspace()` class: `\t`, `\n`, `\x0b`, `\x0c`, `\r` (U+0009-U+000D),
the information separators U+001C-U+001F, the space U+0020, next line
U+0085, no-break space U+00A0, Ogham space mark U+1680, the Unicode spaces
U+2000-U+200A, line separator U+2028, paragraph separator U+2029, narrow
no-break space U+202F, medium mathematical space U+205F and ideographic
space U+3000. -/
def isPySpace (c : Char) : Bool :=
  let n := c.toNat
  (0x09 ≤ n && n ≤ 0x0D) || (0x1C ≤ n && n ≤ 0x1F) || n == 0x20 ||
  n == 0x85 || n == 0xA0 || n == 0x1680 ||
  (0x2000 ≤ n && n ≤ 0x200A) || n == 0x2028 || n == 0x2029 ||
  n == 0x202F || n == 0x205F || n == 0x3000

/-- Python's `str.strip()`: remove leading and trailing whitespace. -/
def strip (s : String) : String :=
  String.mk (((s.data.dropWhile isPySpace).reverse.dropWhile isPySpace).reverse)

/-- Extraction of the summary string from the provider response, mirroring
`response.text.strip() if getattr(response, "text", None) else "[no summary returned]"`
(lines 97 and 117).  `none` models an absent `text` attribute; `some ""`
is falsy in Python, so it also yields the sentinel. -/
def summary_text (text : Option String) : String :=
  match text with
  | none => "[no summary returned]"
  | some s => if s = "" then "[no summary returned]" else strip s

/-- Handler of `POST /summarize` (lines 83-98).  `provider` models
`genai.GenerativeModel(GEMINI_MODEL).generate_content`: it receives the
prompt string and yields the optional `text` of the response. -/
def summarize (body : SummarizeIn) (provider : String → Option String) : SummaryOut :=
  { summary := summary_text (provider (user_content body.prompt body.transcript)) }

/-- Whether a byte is a UTF-8 continuation byte (`0x80..0xBF`). -/
def isCont (b : Nat) : Prop := 0x80 ≤ b ∧ b ≤ 0xBF

instance (b : Nat) : Decidable (isCont b) := by unfold isCont; infer_instance

/-- Valid second byte of a three-byte UTF-8 sequence starting with `b`:
`0xE0` requires `0xA0..0xBF` (no overlong forms) and `0xED` requires
`0x80..0x9F` (no surrogates). -/
def cont3ok (b c1 : Nat) : Prop :=
  if b = 0xE0 then 0xA0 ≤ c1 ∧ c1 ≤ 0xBF
  else if b = 0xED then 0x80 ≤ c1 ∧ c1 ≤ 0x9F
  else isCont c1

instance (b c1 : Nat) : Decidable (cont3ok b c1) := by unfold cont3ok; infer_instance

/-- Valid second byte of a four-byte UTF-8 sequence starting with `b`:
`0xF0` requires `0x90..0xBF` (no overlong forms) and `0xF4` requires
`0x80..0x8F` (code points at most `0x10FFFF`). -/
def cont4ok (b c1 : Nat) : Prop :=
  if b = 0xF0 then 0x90 ≤ c1 ∧ c1 ≤ 0xBF
  else if b = 0xF4 then 0x80 ≤ c1 ∧ c1 ≤ 0x8F
  else isCont c1

instance (b c1 : Nat) : Decidable (cont4ok b c1) := by unfold cont4ok; infer_instance

/-- Lenient UTF-8 decoding of a byte list, mirroring Python's
`bytes.decode("utf-8", errors="ignore")`: a valid sequence is decoded to its
code point; on an invalid or truncated sequence the offending bytes are
dropped and decoding resumes at the first byte that was not part of a valid
prefix of a sequence. -/
def utf8Ignore : List Nat → List Char
  | [] => []
  | b :: rest =>
    if b ≤ 0x7F then
      Char.ofNat b :: utf8Ignore rest
    else if 0xC2 ≤ b ∧ b ≤ 0xDF then
      match rest with
      | [] => []
      | c1 :: rest1 =>
        if isCont c1 then
          Char.ofNat ((b - 0xC0) * 0x40 + (c1 - 0x80)) :: utf8Ignore rest1
        else utf8Ignore (c1 :: rest1)
    else if 0xE0 ≤ b ∧ b ≤ 0xEF then
      match rest with
      | [] => []
      | c1 :: rest1 =>
        if cont3ok b c1 then
          match rest1 with
          | [] => []
          | c2 :: rest2 =>
            if isCont c2 then
              Char.ofNat ((b - 0xE0) * 0x1000 + (c1 - 0x80) * 0x40 + (c2 - 0x80)) :: utf8Ignore rest2
            else utf8Ignore (c2 :: rest2)
        else utf8Ignore (c1 :: rest1)
    else if 0xF0 ≤ b ∧ b ≤ 0xF4 then
      match rest with
      | [] => []
      | c1 :: rest1 =>
        if cont4ok b c1 then
          match rest1 with
          | [] => []
          | c2 :: rest2 =>
            if isCont c2 then
              match rest2 with
              | [] => []
              | c3 :: rest3 =>
                if isCont c3 then
                  Char.ofNat ((b - 0xF0) * 0x40000 + (c1 - 0x80) * 0x1000 + (c2 - 0x80) * 0x40 + (c3 - 0x80)) :: utf8Ignore rest3
                else utf8Ignore (c3 :: rest3)
            else utf8Ignore (c2 :: rest2)
        else utf8Ignore (c1 :: rest1)
    else
      utf8Ignore rest

/-- `content_bytes.decode("utf-8", errors="ignore")` (line 112). -/
def decodeUtf8Ignore (bs : List Nat) : String :=
  String.mk (utf8Ignore bs)

/-- Default of the `prompt` form field of `POST /upload_and_summarize`
(line 104). -/
def upload_default_prompt : String :=
  "Summarize the meeting and extract action items."

/-- Handler of `POST /upload_and_summarize` (lines 101-118): decodes the
uploaded bytes leniently as UTF-8 and proceeds exactly as `summarize`. -/
def upload_and_summarize (fileBytes : List Nat) (prompt : String)
    (provider : String → Option String) : SummaryOut :=
  let transcript := decodeUtf8Ignore fileBytes
  { summary := summary_text (provider (user_content prompt transcript)) }

/-- Request body of `POST /email` (`class EmailIn`): summary text, recipient
list, optional subject defaulting to `"Meeting Summary"`. -/
structure EmailIn where
  summary : String
  recipients : List String
  subject : Option String := some "Meeting Summary"
deriving Repr, DecidableEq

/-- The email message assembled by the handler (lines 129-138): subject,
from and to headers, the plain-text body set by `msg.set_content` and the
HTML alternative added by `msg.add_alternative`. -/
structure EmailMsg where
  subject : Option String
  fromAddr : String
  toHeader : String
  textBody : String
  htmlBody : String
deriving Repr, DecidableEq

/-- Construction of the message (lines 129-138): the plain-text body is the
summary verbatim, and the HTML alternative embeds the summary, unescaped,
inside a preformatted monospace block. -/
def build_message (cfg : SmtpConfig) (body : EmailIn) : EmailMsg :=
  { subject := body.subject
    fromAddr := cfg.fromEmail
    toHeader := String.intercalate ", " body.recipients
    textBody := body.summary
    htmlBody :=
      "<html><body><pre style=\"font-family: ui-monospace, monospace;\">"
        ++ body.summary ++ "</pre></body></html>" }

/-- Outcome of the SMTP connect/STARTTLS/login/send sequence (lines
141-144): either it completes, or some step raises an exception whose
textual description (`str(e)`) is `m`. -/
inductive SmtpOutcome where
  | ok : SmtpOutcome
  | err (m : String) : SmtpOutcome
deriving Repr, DecidableEq

/-- JSON result of `POST /email`: `{"ok": ...}` with an optional
`"error"` field. -/
structure EmailOut where
  ok : Bool
  error : Option String
deriving Repr, DecidableEq

/-- Handler body of `POST /email` (lines 121-148) after input validation.
The second component records the interaction with the SMTP transport:
`none` means no connection was attempted, `some msg` means the handler ran
the connect/STARTTLS/login/send sequence handing `msg` to `send_message`.
The `not all([SMTP_HOST, SMTP_PORT, SMTP_USER, SMTP_PASS, FROM_EMAIL])`
guard is the disjunction of Python falsiness of each resolved setting. -/
def send_email (cfg : SmtpConfig) (body : EmailIn) (net : SmtpOutcome) :
    EmailOut × Option EmailMsg :=
  if cfg.host = "" ∨ cfg.port = 0 ∨ cfg.user = "" ∨ cfg.pass = "" ∨ cfg.fromEmail = "" then
    ({ ok := false, error := some "SMTP not configured on server." }, none)
  else
    let msg := build_message cfg body
    match net with
    | SmtpOutcome.ok => ({ ok := true, error := none }, some msg)
    | SmtpOutcome.err m => ({ ok := false, error := some m }, some msg)

/-- Split a character list at every occurrence of a separator. -/
def splitChar : List Char → Char → List (List Char)
  | [], _ => [[]]
  | c :: rest, sep =>
    match splitChar rest sep with
    | [] => if c = sep then [[], []] else [[c]]
    | h :: t => if c = sep then [] :: h :: t else (c :: h) :: t

/-- Modelled from the spec: the validation of the `EmailStr`-typed
`recipients` field, performed by the framework at the input boundary; the
validator itself is library code not under `src/`.  Following the spec
("each must be a syntactically valid email address"), a string is accepted
when it is a non-empty local part and a non-empty domain part separated by
a single `@`, the domain contains a dot, and no whitespace occurs. -/
def isValidEmail (s : String) : Bool :=
  match splitChar s.data '@' with
  | [loc, dom] =>
    !loc.isEmpty && !dom.isEmpty && dom.contains '.' && (loc ++ dom).all (fun c => !isPySpace c)
  | _ => false

/-- HTTP-level response of `POST /email`: either a validation error
produced at the input boundary (the request body never reaches the
handler), or the handler's result. -/
inductive EmailResponse where
  | validationError : EmailResponse
  | result (out : EmailOut) : EmailResponse
deriving Repr, DecidableEq

/-- Full request handling of `POST /email`: the framework validates the
body (every recipient must be a valid email address) before the handler
runs; only a valid body reaches `send_email`. -/
def handle_email (cfg : SmtpConfig) (body : EmailIn) (net : SmtpOutcome) :
    EmailResponse × Option EmailMsg :=
  if body.recipients.all isValidEmail then
    let r := send_email cfg body net
    (EmailResponse.result r.1, r.2)
  else (EmailResponse.validationError, none)

/-- Response body of `GET /health`. -/
structure HealthOut where
  status : String
deriving Repr, DecidableEq

/-- Handler of `GET /health` (lines 78-80): reads nothing from the process
environment and returns HTTP 200 with the fixed payload. -/
def handle_health (_env : Env) : Nat × HealthOut :=
  (200, { status := "ok" })

/-- An environment with `SMTP_HOST` (and `SMTP_PORT`, `FROM_EMAIL`) unset
but user and password present. -/
def envNoHost : Env := fun k =>
  if k = "SMTP_USER" then some "user@example.com"
  else if k = "SMTP_PASS" then some "secret"
  else none

/-- Any byte that can never start a UTF-8 sequence (nor continue one from
this position) is dropped by the decoder. -/
theorem utf8Ignore_drop (b : Nat) (rest : List Nat)
    (h1 : ¬ b ≤ 0x7F) (h2 : ¬(0xC2 ≤ b ∧ b ≤ 0xDF)) (h3 : ¬(0xE0 ≤ b ∧ b ≤ 0xEF))
    (h4 : ¬(0xF0 ≤ b ∧ b ≤ 0xF4)) :
    utf8Ignore (b :: rest) = utf8Ignore rest := by
  rcases rest with _ | ⟨c1, _ | ⟨c2, _ | ⟨c3, rest3⟩⟩⟩
  · rw [utf8Ignore.eq_2, if_neg h1, if_neg h2, if_neg h3, if_neg h4]
  · rw [utf8Ignore.eq_3, if_neg h1, if_neg h2, if_neg h3, if_neg h4]
  · rw [utf8Ignore.eq_4, if_neg h1, if_neg h2, if_neg h3, if_neg h4]
  · rw [utf8Ignore.eq_5, if_neg h1, if_neg h2, if_neg h3, if_neg h4]

set_option maxRecDepth 20000 in
/-- C1: for every transcript `t` and instruction `p`, `summarize` passes to
the provider exactly the string `"Instruction: " ++ p ++ "\n\nTranscript:\n" ++ t`,
and `upload_and_summarize` passes the same string with `t` the decoded file
contents; the spec's end-to-end scenario holds with a mock provider. -/
theorem c1_prompt_exact :
    (∀ (t p : String) (f : String → Option String),
      summarize ⟨t, p⟩ f
        = ⟨summary_text (f ("Instruction: " ++ p ++ "\n\nTranscript:\n" ++ t))⟩) ∧
    (∀ (bs : List Nat) (p : String) (f : String → Option String),
      upload_and_summarize bs p f
        = ⟨summary_text (f ("Instruction: " ++ p ++ "\n\nTranscript:\n" ++ decodeUtf8Ignore bs))⟩) ∧
    summarize ⟨"Alice: ship by Friday.", "List action items"⟩
        (fun q =>
          if q = "Instruction: List action items\n\nTranscript:\nAlice: ship by Friday."
          then some "- Alice: ship by Friday" else none)
      = ⟨"- Alice: ship by Friday"⟩ :=
  ⟨fun _ _ _ => rfl, fun _ _ _ => rfl, by decide⟩

set_option maxRecDepth 20000 in
/-- C2 (code bug): `SYSTEM_PROMPT` is defined in `backend/main.py` (lines
35-53) but never passed to `generate_content`; the provider receives only
the user prompt.  At transcript `"t"` and instruction `"p"` the provider
input (echoed back by the provider) is exactly
`"Instruction: p\n\nTranscript:\nt"`, which is strictly shorter than
`SYSTEM_PROMPT` and hence cannot include it. -/
theorem c2_system_prompt_not_sent :
    summarize ⟨"t", "p"⟩ some = ⟨"Instruction: p\n\nTranscript:\nt"⟩ ∧
    (user_content "p" "t").length < SYSTEM_PROMPT.length := by
  exact ⟨by decide, by decide⟩

/-- C3: whenever the provider's response has absent (`none`) or empty text,
both summarization endpoints return `{"summary": "[no summary returned]"}`;
they never error. -/
theorem c3_empty_text_sentinel :
    (∀ (body : SummarizeIn) (f : String → Option String),
      f (user_content body.prompt body.transcript) = none →
        summarize body f = ⟨"[no summary returned]"⟩) ∧
    (∀ (body : SummarizeIn) (f : String → Option String),
      f (user_content body.prompt body.transcript) = some "" →
        summarize body f = ⟨"[no summary returned]"⟩) ∧
    (∀ (bs : List Nat) (p : String) (f : String → Option String),
      f (user_content p (decodeUtf8Ignore bs)) = none →
        upload_and_summarize bs p f = ⟨"[no summary returned]"⟩) ∧
    (∀ (bs : List Nat) (p : String) (f : String → Option String),
      f (user_content p (decodeUtf8Ignore bs)) = some "" →
        upload_and_summarize bs p f = ⟨"[no summary returned]"⟩) := by
  refine ⟨fun body f h => ?_, fun body f h => ?_, fun bs p f h => ?_, fun bs p f h => ?_⟩ <;>
    simp [summarize, upload_and_summarize, summary_text, h]

/-- Witness for C3 at concrete inputs. -/
theorem c3_empty_text_sentinel_witness :
    summarize ⟨"t", "p"⟩ (fun _ => none) = ⟨"[no summary returned]"⟩ ∧
    upload_and_summarize [] "p" (fun _ => some "") = ⟨"[no summary returned]"⟩ :=
  ⟨c3_empty_text_sentinel.1 ⟨"t", "p"⟩ (fun _ => none) rfl,
   c3_empty_text_sentinel.2.2.2 [] "p" (fun _ => some "") rfl⟩

/-- C4 counterexample: with `SMTP_HOST` unset in the environment (and user
and password set), the resolved host is the default `"smtp.gmail.com"`, the
`not all(...)` guard passes, and the handler does attempt an SMTP
connection instead of returning the not-configured failure. -/
theorem c4_counterexample_host_unset :
    envNoHost "SMTP_HOST" = none ∧
    resolveSmtpConfig envNoHost
      = some ⟨"smtp.gmail.com", 587, "user@example.com", "secret", "user@example.com"⟩ ∧
    (send_email ⟨"smtp.gmail.com", 587, "user@example.com", "secret", "user@example.com"⟩
        ⟨"s", ["a@b.com"], some "Meeting Summary"⟩ SmtpOutcome.ok).2.isSome = true ∧
    (send_email ⟨"smtp.gmail.com", 587, "user@example.com", "secret", "user@example.com"⟩
        ⟨"s", ["a@b.com"], some "Meeting Summary"⟩ SmtpOutcome.ok).1
      = { ok := true, error := none } := by
  exact ⟨rfl, by decide, by decide, by decide⟩

/-- C4 (amended): if any of the resolved SMTP settings is falsy — empty
host, port `0`, empty user, empty password or empty from-address — the
handler returns `{"ok": false, "error": "SMTP not configured on server."}`
and attempts no connection.  (Host and port have non-empty defaults
`"smtp.gmail.com"` and `587`, and the from-address defaults to the user, so
leaving those unset does not trigger this branch.) -/
theorem c4_not_configured (cfg : SmtpConfig) (body : EmailIn) (net : SmtpOutcome)
    (h : cfg.host = "" ∨ cfg.port = 0 ∨ cfg.user = "" ∨ cfg.pass = "" ∨ cfg.fromEmail = "") :
    send_email cfg body net
      = ({ ok := false, error := some "SMTP not configured on server." }, none) := by
  unfold send_email
  rw [if_pos h]

/-- Witness for C4 (amended) with an empty user. -/
theorem c4_not_configured_witness :
    send_email ⟨"smtp.gmail.com", 587, "", "", ""⟩
        ⟨"s", ["a@b.com"], some "Meeting Summary"⟩ SmtpOutcome.ok
      = ({ ok := false, error := some "SMTP not configured on server." }, none) :=
  c4_not_configured _ _ _ (Or.inr (Or.inr (Or.inl rfl)))

/-- C5: with SMTP fully configured, an exception raised anywhere in the
connect/STARTTLS/login/send sequence is caught and surfaced as
`{"ok": false, "error": str(e)}`, and a successful sequence yields
`{"ok": true}`; the handler is a total function, so no exception
propagates. -/
theorem c5_smtp_errors_caught (cfg : SmtpConfig) (body : EmailIn) (m : String)
    (hhost : cfg.host ≠ "") (hport : cfg.port ≠ 0) (huser : cfg.user ≠ "")
    (hpass : cfg.pass ≠ "") (hfrom : cfg.fromEmail ≠ "") :
    send_email cfg body (SmtpOutcome.err m)
        = ({ ok := false, error := some m }, some (build_message cfg body)) ∧
    send_email cfg body SmtpOutcome.ok
        = ({ ok := true, error := none }, some (build_message cfg body)) := by
  have hc : ¬(cfg.host = "" ∨ cfg.port = 0 ∨ cfg.user = "" ∨ cfg.pass = "" ∨ cfg.fromEmail = "") := by
    simp [hhost, hport, huser, hpass, hfrom]
  unfold send_email
  rw [if_neg hc, if_neg hc]
  exact ⟨rfl, rfl⟩

/-- Witness for C5 at a concrete configuration and error message. -/
theorem c5_smtp_errors_caught_witness :
    send_email ⟨"smtp.gmail.com", 587, "u", "p", "u"⟩
        ⟨"s", ["a@b.com"], some "Meeting Summary"⟩ (SmtpOutcome.err "boom")
      = ({ ok := false, error := some "boom" },
         some (build_message ⟨"smtp.gmail.com", 587, "u", "p", "u"⟩
           ⟨"s", ["a@b.com"], some "Meeting Summary"⟩)) ∧
    send_email ⟨"smtp.gmail.com", 587, "u", "p", "u"⟩
        ⟨"s", ["a@b.com"], some "Meeting Summary"⟩ SmtpOutcome.ok
      = ({ ok := true, error := none },
         some (build_message ⟨"smtp.gmail.com", 587, "u", "p", "u"⟩
           ⟨"s", ["a@b.com"], some "Meeting Summary"⟩)) :=
  c5_smtp_errors_caught _ _ "boom" (by decide) (by decide) (by decide) (by decide) (by decide)

/-- C6: a request whose recipient list contains a string that is not a
syntactically valid email address is rejected at the input-validation
boundary: the response is a validation error, `send_email` never runs and
no SMTP connection is attempted. -/
theorem c6_invalid_recipient_rejected (cfg : SmtpConfig) (body : EmailIn)
    (net : SmtpOutcome) (r : String) (hr : r ∈ body.recipients)
    (hv : isValidEmail r = false) :
    handle_email cfg body net = (EmailResponse.validationError, none) := by
  have hall : body.recipients.all isValidEmail = false := by
    cases h : body.recipients.all isValidEmail
    · rfl
    · exact absurd (List.all_eq_true.mp h r hr) (by simp [hv])
  simp [handle_email, hall]

/-- Witness for C6 with the spec's sample malformed recipient. -/
theorem c6_invalid_recipient_rejected_witness :
    handle_email ⟨"smtp.gmail.com", 587, "u", "p", "u"⟩
        ⟨"s", ["not-an-email"], some "Meeting Summary"⟩ SmtpOutcome.ok
      = (EmailResponse.validationError, none) :=
  c6_invalid_recipient_rejected _ _ _ "not-an-email" (by decide) (by decide)

/-- C7: `upload_and_summarize` is a total function of the uploaded bytes —
every byte list, valid UTF-8 or not, yields a response, namely `summarize`
applied to the lenient decoding — and the lenient decoder drops invalid
bytes: any byte `≥ 0xF5` and any byte in `0x80..0xC1` (stray continuation
bytes and overlong-encoding starters) is skipped.  `decodeUtf8Ignore` of
`"H" ++ 0xFF ++ "i"` is `"Hi"`. -/
theorem c7_lenient_decode :
    (∀ (bs : List Nat) (p : String) (f : String → Option String),
      upload_and_summarize bs p f = summarize ⟨decodeUtf8Ignore bs, p⟩ f) ∧
    (∀ (b : Nat) (rest : List Nat), 0xF5 ≤ b → utf8Ignore (b :: rest) = utf8Ignore rest) ∧
    (∀ (b : Nat) (rest : List Nat), 0x80 ≤ b → b ≤ 0xC1 → utf8Ignore (b :: rest) = utf8Ignore rest) ∧
    decodeUtf8Ignore [72, 0xFF, 105] = "Hi" :=
  ⟨fun _ _ _ => rfl,
   fun b rest h => utf8Ignore_drop b rest (by omega) (by omega) (by omega) (by omega),
   fun b rest h h' => utf8Ignore_drop b rest (by omega) (by omega) (by omega) (by omega),
   by decide⟩

/-- Witness for C7 at concrete invalid bytes. -/
theorem c7_lenient_decode_witness :
    upload_and_summarize [0xFF, 72] "p" (fun _ => none)
      = summarize ⟨decodeUtf8Ignore [0xFF, 72], "p"⟩ (fun _ => none) ∧
    utf8Ignore [0xF5, 72] = utf8Ignore [72] ∧
    utf8Ignore [0x80, 72] = utf8Ignore [72] :=
  ⟨c7_lenient_decode.1 [0xFF, 72] "p" (fun _ => none),
   c7_lenient_decode.2.1 0xF5 [72] (by decide),
   c7_lenient_decode.2.2.1 0x80 [72] (by decide) (by decide)⟩

/-- C8: the message built by the mailer has plain-text body equal to the
summary and an HTML alternative embedding the same summary, unescaped,
inside a monospace `<pre>` block; whenever `send_email` reaches the SMTP
sequence, the message it hands over is exactly this one. -/
theorem c8_message_bodies (cfg : SmtpConfig) (s : String) (recips : List String)
    (subj : Option String) :
    (build_message cfg ⟨s, recips, subj⟩).textBody = s ∧
    (build_message cfg ⟨s, recips, subj⟩).htmlBody
      = "<html><body><pre style=\"font-family: ui-monospace, monospace;\">" ++ s
          ++ "</pre></body></html>" ∧
    ∀ net : SmtpOutcome,
      (send_email cfg ⟨s, recips, subj⟩ net).2 = none ∨
      (send_email cfg ⟨s, recips, subj⟩ net).2 = some (build_message cfg ⟨s, recips, subj⟩) := by
  refine ⟨rfl, rfl, fun net => ?_⟩
  unfold send_email
  split
  · exact Or.inl rfl
  · cases net <;> exact Or.inr rfl

/-- C9: the health endpoint returns HTTP 200 with the fixed payload
`{"status": "ok"}` for every process environment; it reads no
configuration and has no failure mode. -/
theorem c9_health_fixed (env : Env) :
    handle_health env = (200, { status := "ok" }) :=
  rfl

/-- C10: when the provider's text is non-empty, both endpoints return it
with leading and trailing whitespace stripped; in particular a non-empty
all-whitespace text — whether ASCII whitespace or the further
`str.isspace()` characters U+001C, U+0085, U+00A0, U+2000, U+2028 and
U+3000 — yields the empty summary, not the sentinel. -/
theorem c10_nonempty_text_stripped :
    (∀ (body : SummarizeIn) (f : String → Option String) (s : String),
      f (user_content body.prompt body.transcript) = some s → s ≠ "" →
        summarize body f = ⟨strip s⟩) ∧
    (∀ (bs : List Nat) (p : String) (f : String → Option String) (s : String),
      f (user_content p (decodeUtf8Ignore bs)) = some s → s ≠ "" →
        upload_and_summarize bs p f = ⟨strip s⟩) ∧
    summarize ⟨"t", "p"⟩ (fun _ => some " \n ") = ⟨""⟩ ∧
    summarize ⟨"t", "p"⟩ (fun _ => some "\x1c\x85\xa0\u2000\u2028\u3000") = ⟨""⟩ ∧
    summarize ⟨"t", "p"⟩ (fun _ => some " \n ") ≠ ⟨"[no summary returned]"⟩ := by
  refine ⟨fun body f s h hs => ?_, fun bs p f s h hs => ?_, by decide, by decide, by decide⟩
  · simp [summarize, summary_text, h, hs]
  · simp [upload_and_summarize, summary_text, h, hs]

/-- Witness for C10 at concrete non-empty provider texts. -/
theorem c10_nonempty_text_stripped_witness :
    summarize ⟨"t", "p"⟩ (fun _ => some " x ") = ⟨strip " x "⟩ ∧
    upload_and_summarize [] "p" (fun _ => some "y") = ⟨strip "y"⟩ :=
  ⟨c10_nonempty_text_stripped.1 ⟨"t", "p"⟩ (fun _ => some " x ") " x " rfl (by decide),
   c10_nonempty_text_stripped.2.1 [] "p" (fun _ => some "y") "y" rfl (by decide)⟩

end MeetingSummary
